import Mathlib

/-!
Verification of the `doctor` diagnostic pipeline
(`src/packages/cli-utils/src/commands/doctor/runner.ts`).

The pipeline is an async generator: it yields progress events (title,
running/completed/failed per check, a success sentinel), awaits pacing
delays, performs one manifest read and two external calls (config
resolution and schema introspection), and terminates either normally or
by throwing a `UserError` / `ExternalError`.

We embed it as a pure function from an explicit environment (the results
of the external calls) to a trace of steps (emitted events, waits, I/O
markers) together with a terminal outcome.
-/

/-! ## Events, steps, errors -/

/-- The events the generator yields (`ComposeInput` values built by the
`logger` module): a title/description header, the per-check lifecycle
events `running`/`completed`/`failed` (with `completed` carrying the
`final` flag of `logger.completedTask`), and the success sentinel. -/
inductive Event where
  | title (text description : String)
  | running (label : String)
  | completed (label : String) (final : Bool)
  | failed (label : String)
  | success
deriving DecidableEq, Repr

/-- One observable step of the generator: yielding an event, awaiting the
pacing delay for `ms` milliseconds, the `package.json` filesystem read,
the `loadConfig()` call, or the `loadIntrospection()` call. -/
inductive Step where
  | emit (e : Event)
  | wait (ms : Nat)
  | readManifest
  | resolveConfig
  | loadSchema
deriving DecidableEq, Repr

/-- Errors thrown by the pipeline: `logger.errorMessage` builds a
user-facing error (no cause), `logger.externalError` wraps an underlying
cause. Causes are opaque payloads, modelled as strings. -/
inductive PipelineError where
  | userError (message : String)
  | externalError (message : String) (cause : String)
deriving DecidableEq, Repr

/-- How a run of the generator ends: normally, or by throwing. -/
inductive Outcome where
  | success
  | error (e : PipelineError)
deriving DecidableEq, Repr

/-! ## Logger formatting and messages -/

/-- Inline-code formatting, a rendering concern only (modelled as the
identity on the text). -/
def logger.code (s : String) : String := s

/-- Hint formatting, a rendering concern only. -/
def logger.hint (s : String) : String := s

/-- Bold formatting, a rendering concern only. -/
def logger.bold (s : String) : String := s

/-- `logger.errorMessage`: a user-facing error. -/
def logger.errorMessage (message : String) : PipelineError :=
  PipelineError.userError message

/-- `logger.externalError`: an error wrapping an underlying cause. -/
def logger.externalError (message : String) (cause : String) : PipelineError :=
  PipelineError.externalError message cause

/-- The `Messages` string enum of `runner.ts`. -/
def Messages.TITLE : String := "Doctor"

def Messages.DESCRIPTION : String := "Detects problems with your setup"

def Messages.CHECK_TS_VERSION : String := "Checking TypeScript version"

def Messages.CHECK_DEPENDENCIES : String := "Checking installed dependencies"

def Messages.CHECK_TSCONFIG : String := "Checking tsconfig.json"

def Messages.CHECK_SCHEMA : String := "Checking schema"

/-- The `MINIMUM_VERSIONS` constant of `runner.ts`. -/
def MINIMUM_VERSIONS.typescript : String := "4.1.0"

def MINIMUM_VERSIONS.tada : String := "1.0.0"

def MINIMUM_VERSIONS.lsp : String := "1.0.0"

/-! ## The version comparator -/

/-- Maximal leading run of decimal digits, with the rest of the input;
`none` when the input does not start with a digit. This is how a greedy
regex atom matching one-or-more digits consumes characters. -/
def takeDigits (cs : List Char) : Option (List Char × List Char) :=
  let digits := cs.takeWhile Char.isDigit
  if digits = [] then none else some (digits, cs.dropWhile Char.isDigit)

/-- The regex of `semiverComply` (digits, dot, digits, dot, digits)
matched at the start of the input. Greedy digit runs need no
backtracking here: a digit run can only be followed by a dot in a
successful match, and shortening a run leaves a digit, not a dot. -/
def matchTripleAt (cs : List Char) : Option String :=
  match takeDigits cs with
  | none => none
  | some (a, r1) =>
    match r1 with
    | '.' :: r2 =>
      match takeDigits r2 with
      | none => none
      | some (b, r3) =>
        match r3 with
        | '.' :: r4 =>
          match takeDigits r4 with
          | none => none
          | some (c, _) => some (String.mk (a ++ '.' :: (b ++ '.' :: c)))
        | _ => none
    | _ => none

/-- `version.match(...)`: the leftmost match of the dotted-triple regex,
found by trying every start position from the left. -/
def findTriple : List Char → Option String
  | [] => none
  | c :: cs =>
    match matchTripleAt (c :: cs) with
    | some m => some m
    | none => findTriple cs

/-- Split a character list on dots (the separators themselves dropped). -/
def splitOnDot : List Char → List (List Char)
  | [] => [[]]
  | '.' :: rest => [] :: splitOnDot rest
  | c :: rest =>
    match splitOnDot rest with
    | [] => [[c]]
    | g :: gs => (c :: g) :: gs

/-- Decimal value of a digit run. -/
def digitsToNat (cs : List Char) : Nat :=
  cs.foldl (fun acc c => acc * 10 + (c.toNat - Char.toNat '0')) 0

/-- The first three dot-separated numeric components of a version
string (missing components read as 0). -/
def parseTriple (s : String) : Nat × Nat × Nat :=
  let parts := (splitOnDot s.data).map digitsToNat
  (parts.getD 0 0, parts.getD 1 0, parts.getD 2 0)

/-- Modelled from the spec: the external `semiver` package is not part of
this repository's sources; per the spec the comparator "performs a
standard three-component numeric version comparison". Returns a negative,
zero or positive number as the first version is below, at or above the
second. -/
def semiver (a b : String) : Int :=
  let x := parseTriple a
  let y := parseTriple b
  if x.1 < y.1 then -1
  else if y.1 < x.1 then 1
  else if x.2.1 < y.2.1 then -1
  else if y.2.1 < x.2.1 then 1
  else if x.2.2 < y.2.2 then -1
  else if y.2.2 < x.2.2 then 1
  else 0

/-- `semiverComply` from `runner.ts`: extract the first dotted triple of
digits from `version`; compare it against `compare`; `false` when no
triple exists. -/
def semiverComply (version compare : String) : Bool :=
  match findTriple version.data with
  | some m => decide (0 ≤ semiver m compare)
  | none => false

/-- Three-component numeric version ordering, stated from the spec's
words ("returns true iff discovered ≥ minimum" componentwise): the
spec-side comparison the comparator is claimed to refine. -/
def tripleGE (x y : Nat × Nat × Nat) : Prop :=
  y.1 < x.1 ∨ (x.1 = y.1 ∧ (y.2.1 < x.2.1 ∨ (x.2.1 = y.2.1 ∧ y.2.2 ≤ x.2.2)))

instance (x y : Nat × Nat × Nat) : Decidable (tripleGE x y) := by
  unfold tripleGE; infer_instance

/-! ## The manifest and the dependency map -/

/-- The shape `runner.ts` reads from `package.json`: the two dependency
records, each an insertion-ordered list of name/version entries. -/
structure PackageJson where
  dependencies : List (String × String)
  devDependencies : List (String × String)
deriving DecidableEq, Repr

/-- One assignment of a JavaScript object spread: overwrite the value if
the key is present (keeping its position), append otherwise. -/
def objAssign (obj : List (String × String)) (entry : String × String) :
    List (String × String) :=
  if obj.any (fun p => p.1 = entry.1) then
    obj.map (fun p => if p.1 = entry.1 then (p.1, entry.2) else p)
  else obj ++ [entry]

/-- The entries of the object spread of two records (later source wins on
key collision), in insertion order, as produced by `Object.entries`. -/
def objSpread (a b : List (String × String)) : List (String × String) :=
  (a ++ b).foldl objAssign []

/-- The `deps` value of `runner.ts`:
`Object.entries(\x7b...dependencies, ...devDependencies\x7d)`. -/
def mergedDeps (pkg : PackageJson) : List (String × String) :=
  objSpread pkg.dependencies pkg.devDependencies

/-- The version string a lookup by name sees in an entries list (the
`x[1]` of the entry found by `deps.find`). -/
def lookupA (obj : List (String × String)) (name : String) : Option String :=
  (obj.find? (fun x => x.1 = name)).map (fun x => x.2)

/-- The value of the LAST entry with a given key, spec-side reading of
"later merge source wins on key collision". -/
def lookupLast : List (String × String) → String → Option String
  | [], _ => none
  | p :: rest, name =>
    (lookupLast rest name).or (if p.1 = name then some p.2 else none)

/-! ## The environment of one run -/

/-- The results of the external collaborators during one run: the
`fs.readFile` of `package.json`, the `JSON.parse` of its contents (part
of the JavaScript runtime), `loadConfig()`, `parseConfig(...)` and
`loader.loadIntrospection()` (all from `@gql.tada/internal`, outside
this repository's sources). Each failing result carries an opaque
cause. -/
structure LoadConfigResult where
  pluginConfig : String
  configPath : String
deriving DecidableEq, Repr

/-- The parsed plugin configuration; only its `schema` option is
consulted by the pipeline (`none` models a missing/falsy option). -/
structure GraphQLSPConfig where
  schema : Option String
deriving DecidableEq, Repr

structure Env where
  readPackageJson : Except String String
  parseJson : String → Except String PackageJson
  loadConfig : Except String LoadConfigResult
  parseConfig : String → Except String GraphQLSPConfig
  loadIntrospection : Except String Bool

/-! ## The pipeline -/

/-- `delay` from `runner.ts`, as the number of milliseconds the awaited
promise takes: when `process.env.CI` is set it resolves immediately,
otherwise after `ms` (700 by default at every call site). -/
def delay (ci : Bool) (ms : Nat) : Nat := if ci then 0 else ms

/-- Message of the `package.json` read/parse failure (lines 60-64). -/
def manifestNotFoundMsg : String :=
  "A " ++ logger.code "package.json" ++
    " file was not found in the current working directory.\n" ++
    logger.hint "Try running the doctor command in your workspace folder."

/-- Message of the missing `typescript` entry (lines 74-78). -/
def typescriptNotFoundMsg : String :=
  "A version of " ++ logger.code "typescript" ++
    " was not found in your dependencies.\n" ++
    logger.hint ("Is " ++ logger.code "typescript" ++ " installed in this package?")

/-- Message of the outdated `typescript` entry (lines 81-87). -/
def typescriptOutdatedMsg : String :=
  "The version of " ++ logger.code "typescript" ++
    " in your dependencies is out of date.\n" ++
    logger.hint (logger.code "gql.tada" ++ " requires at least " ++
      logger.bold MINIMUM_VERSIONS.typescript)

/-- Message of the missing `@0no-co/graphqlsp` entry (lines 96-100). -/
def graphqlspNotFoundMsg : String :=
  "A version of " ++ logger.code "@0no-co/graphqlsp" ++
    " was not found in your dependencies.\n" ++
    logger.hint ("Is " ++ logger.code "@0no-co/graphqlsp" ++ " installed?")

/-- Message of the outdated `@0no-co/graphqlsp` entry (lines 102-108). -/
def graphqlspOutdatedMsg : String :=
  "The version of " ++ logger.code "@0no-co/graphqlsp" ++
    " in your dependencies is out of date.\n" ++
    logger.hint (logger.code "gql.tada" ++ " requires at least " ++
      logger.bold MINIMUM_VERSIONS.lsp)

/-- Message of the missing `gql.tada` entry (lines 113-117). -/
def tadaNotFoundMsg : String :=
  "A version of " ++ logger.code "gql.tada" ++
    " was not found in your dependencies.\n" ++
    logger.hint ("Is " ++ logger.code "gql.tada" ++ " installed?")

/-- Message of the outdated `gql.tada` entry (lines 119-127). -/
def tadaOutdatedMsg : String :=
  "The version of " ++ logger.code "gql.tada" ++
    " in your dependencies is out of date.\n" ++
    logger.hint ("It\x27s recommended to upgrade " ++ logger.code "gql.tada" ++
      " to at least " ++ logger.bold MINIMUM_VERSIONS.lsp)

/-- Message of the `loadConfig()` failure (lines 138-143). -/
def tsconfigNotFoundMsg : String :=
  "A " ++ logger.code "tsconfig.json" ++
    " file was not found in the current working directory."

/-- Message of the `parseConfig` failure (lines 148-153). -/
def invalidPluginConfigMsg : String :=
  "The plugin configuration for " ++ logger.code "\"@0no-co/graphqlsp\"" ++
    " seems to be invalid."

/-- Message of the missing `schema` option (lines 155-161). -/
def noSchemaOptionMsg : String :=
  "No " ++ logger.code "\"schema\"" ++
    " option was found in your configuration.\n" ++
    logger.hint "Have you specified your SDL file or URL in your configuration yet?"

/-- The steps of the pipeline up to and including the manifest read:
title, check 1 running, delay, `fs.readFile` (lines 44-58). -/
def stepsPrefix1 (d : Nat) : List Step :=
  [Step.emit (Event.title Messages.TITLE Messages.DESCRIPTION),
   Step.emit (Event.running Messages.CHECK_TS_VERSION),
   Step.wait d, Step.readManifest]

/-- ... plus check 1 completed, check 2 running, delay (lines 90-92). -/
def stepsPrefix2 (d : Nat) : List Step :=
  stepsPrefix1 d ++
    [Step.emit (Event.completed Messages.CHECK_TS_VERSION false),
     Step.emit (Event.running Messages.CHECK_DEPENDENCIES),
     Step.wait d]

/-- ... plus check 2 completed, check 3 running, delay, `loadConfig()`
(lines 130-136). -/
def stepsPrefix3 (d : Nat) : List Step :=
  stepsPrefix2 d ++
    [Step.emit (Event.completed Messages.CHECK_DEPENDENCIES false),
     Step.emit (Event.running Messages.CHECK_TSCONFIG),
     Step.wait d, Step.resolveConfig]

/-- ... plus check 3 completed, check 4 running, delay,
`loader.loadIntrospection()` (lines 163-174). -/
def stepsPrefix4 (d : Nat) : List Step :=
  stepsPrefix3 d ++
    [Step.emit (Event.completed Messages.CHECK_TSCONFIG false),
     Step.emit (Event.running Messages.CHECK_SCHEMA),
     Step.wait d, Step.loadSchema]

/-- The `run()` generator of `runner.ts`, with the wait duration `d` of
each `await delay()` made explicit. Returns the full trace of steps and
the terminal outcome. Each branch mirrors one control path of the
source, in source order. -/
def runWith (d : Nat) (env : Env) : List Step × Outcome :=
  match env.readPackageJson with
  | Except.error _ =>
    (stepsPrefix1 d ++ [Step.emit (Event.failed Messages.CHECK_TS_VERSION)],
     Outcome.error (logger.errorMessage manifestNotFoundMsg))
  | Except.ok file =>
    match env.parseJson file with
    | Except.error _ =>
      (stepsPrefix1 d ++ [Step.emit (Event.failed Messages.CHECK_TS_VERSION)],
       Outcome.error (logger.errorMessage manifestNotFoundMsg))
    | Except.ok packageJsonContents =>
      match (mergedDeps packageJsonContents).find? (fun x => x.1 = "typescript") with
      | none =>
        (stepsPrefix1 d ++ [Step.emit (Event.failed Messages.CHECK_TS_VERSION)],
         Outcome.error (logger.errorMessage typescriptNotFoundMsg))
      | some typeScriptVersion =>
        if semiverComply typeScriptVersion.2 MINIMUM_VERSIONS.typescript = false then
          (stepsPrefix1 d ++ [Step.emit (Event.failed Messages.CHECK_TS_VERSION)],
           Outcome.error (logger.errorMessage typescriptOutdatedMsg))
        else
          match (mergedDeps packageJsonContents).find? (fun x => x.1 = "@0no-co/graphqlsp") with
          | none =>
            (stepsPrefix2 d ++ [Step.emit (Event.failed Messages.CHECK_DEPENDENCIES)],
             Outcome.error (logger.errorMessage graphqlspNotFoundMsg))
          | some gqlspVersion =>
            if semiverComply gqlspVersion.2 MINIMUM_VERSIONS.lsp = false then
              (stepsPrefix2 d ++ [Step.emit (Event.failed Messages.CHECK_DEPENDENCIES)],
               Outcome.error (logger.errorMessage graphqlspOutdatedMsg))
            else
              match (mergedDeps packageJsonContents).find? (fun x => x.1 = "gql.tada") with
              | none =>
                (stepsPrefix2 d ++ [Step.emit (Event.failed Messages.CHECK_DEPENDENCIES)],
                 Outcome.error (logger.errorMessage tadaNotFoundMsg))
              | some gqlTadaVersion =>
                if semiverComply gqlTadaVersion.2 "1.0.0" = false then
                  (stepsPrefix2 d ++ [Step.emit (Event.failed Messages.CHECK_DEPENDENCIES)],
                   Outcome.error (logger.errorMessage tadaOutdatedMsg))
                else
                  match env.loadConfig with
                  | Except.error cause =>
                    (stepsPrefix3 d ++ [Step.emit (Event.failed Messages.CHECK_TSCONFIG)],
                     Outcome.error (logger.externalError tsconfigNotFoundMsg cause))
                  | Except.ok configResult =>
                    match env.parseConfig configResult.pluginConfig with
                    | Except.error cause =>
                      (stepsPrefix3 d,
                       Outcome.error (logger.externalError invalidPluginConfigMsg cause))
                    | Except.ok pluginConfig =>
                      match pluginConfig.schema with
                      | none =>
                        (stepsPrefix3 d ++ [Step.emit (Event.failed Messages.CHECK_TSCONFIG)],
                         Outcome.error (logger.errorMessage noSchemaOptionMsg))
                      | some _ =>
                        match env.loadIntrospection with
                        | Except.error cause =>
                          (stepsPrefix4 d,
                           Outcome.error (logger.externalError "Failed to load schema." cause))
                        | Except.ok hasSchema =>
                          if hasSchema = false then
                            (stepsPrefix4 d,
                             Outcome.error (logger.errorMessage "Failed to load schema."))
                          else
                            (stepsPrefix4 d ++
                               [Step.emit (Event.completed Messages.CHECK_SCHEMA true),
                                Step.wait d, Step.emit Event.success],
                             Outcome.success)

/-- `run()` as observed from a process whose CI flag is `ci`: every
`await delay()` resolves after `delay ci 700` milliseconds. -/
def run (ci : Bool) (env : Env) : List Step × Outcome :=
  runWith (delay ci 700) env

/-- The events a consumer receives: the trace with waits and I/O
markers dropped. -/
def eventsOf (steps : List Step) : List Event :=
  steps.filterMap (fun s =>
    match s with
    | Step.emit e => some e
    | _ => none)

/-- The event sequence of a run. -/
def events (r : List Step × Outcome) : List Event := eventsOf r.1

/-! ## Derived check predicates (the branch conditions of `run`) -/

/-- Whether an entries list holds a compliant version for a package:
the entry found by `deps.find` exists and `semiverComply` accepts it. -/
def depCompliant (pkg : PackageJson) (name minimum : String) : Bool :=
  match (mergedDeps pkg).find? (fun x => x.1 = name) with
  | some e => semiverComply e.2 minimum
  | none => false

/-- The successfully read and parsed manifest, when both steps succeed. -/
def manifest (env : Env) : Option PackageJson :=
  match env.readPackageJson with
  | Except.error _ => none
  | Except.ok file =>
    match env.parseJson file with
    | Except.error _ => none
    | Except.ok pkg => some pkg

/-- Check 1 (TypeScript version) succeeds. -/
def check1Passes (env : Env) : Bool :=
  match manifest env with
  | none => false
  | some pkg => depCompliant pkg "typescript" MINIMUM_VERSIONS.typescript

/-- The language-service-plugin half of check 2 succeeds. -/
def lspPasses (env : Env) : Bool :=
  match manifest env with
  | none => false
  | some pkg => depCompliant pkg "@0no-co/graphqlsp" MINIMUM_VERSIONS.lsp

/-- The core-library half of check 2 succeeds. -/
def tadaPasses (env : Env) : Bool :=
  match manifest env with
  | none => false
  | some pkg => depCompliant pkg "gql.tada" "1.0.0"

/-- Check 2 (installed dependencies) succeeds. -/
def check2Passes (env : Env) : Bool := lspPasses env && tadaPasses env

/-- Check 3 (tsconfig) succeeds. -/
def check3Passes (env : Env) : Bool :=
  match env.loadConfig with
  | Except.error _ => false
  | Except.ok configResult =>
    match env.parseConfig configResult.pluginConfig with
    | Except.error _ => false
    | Except.ok pluginConfig => pluginConfig.schema.isSome

/-- Check 4 (schema) succeeds. -/
def check4Passes (env : Env) : Bool :=
  match env.loadIntrospection with
  | Except.error _ => false
  | Except.ok hasSchema => hasSchema

/-- All four checks succeed. -/
def allChecksPass (env : Env) : Bool :=
  check1Passes env && check2Passes env && check3Passes env && check4Passes env

/-- The message of the `@0no-co/graphqlsp` failure the pipeline reports:
depends only on the plugin package's own entry, never on the core
library's entry. -/
def graphqlspFailureMsg (env : Env) : String :=
  match manifest env with
  | none => ""
  | some pkg =>
    match (mergedDeps pkg).find? (fun x => x.1 = "@0no-co/graphqlsp") with
    | none => graphqlspNotFoundMsg
    | some _ => graphqlspOutdatedMsg

/-! ## Lifecycle well-formedness (claim C2's invariant) -/

/-- The four check labels in pipeline order. -/
def checkLabels : List String :=
  [Messages.CHECK_TS_VERSION, Messages.CHECK_DEPENDENCIES,
   Messages.CHECK_TSCONFIG, Messages.CHECK_SCHEMA]

/-- One step of the lifecycle automaton. The state is the number of
checks already terminated and whether a check is currently running.
A `running` event is only legal when nothing is running and it names the
next check in order; a terminal event is only legal for the check that
is currently running; title and sentinel events carry no lifecycle. -/
def lifecycleStep : Nat × Bool → Event → Option (Nat × Bool)
  | s, Event.title _ _ => some s
  | s, Event.success => some s
  | (n, false), Event.running l =>
    if checkLabels.get? n = some l then some (n, true) else none
  | (n, true), Event.completed l _ =>
    if checkLabels.get? n = some l then some (n + 1, false) else none
  | (n, true), Event.failed l =>
    if checkLabels.get? n = some l then some (n + 1, false) else none
  | _, _ => none

/-- An event sequence respects the check lifecycle: checks are entered
in order, one at a time, each entered at most once and terminated by
exactly one completed/failed event while it is the one running. -/
def lifecycleWF (es : List Event) : Bool :=
  (es.foldlM lifecycleStep ((0 : Nat), false)).isSome

/-- The wait durations of a trace (the pacing delays actually served). -/
def waitsOf (steps : List Step) : List Nat :=
  steps.filterMap (fun s =>
    match s with
    | Step.wait ms => some ms
    | _ => none)

/-! ## Concrete environments used as witnesses and counterexamples -/

/-- An environment in which all four checks succeed. -/
def envAllPass : Env :=
  ⟨Except.ok "manifest contents",
   fun _ => Except.ok ⟨[("typescript", "^5.3.3")],
                       [("@0no-co/graphqlsp", "1.12.0"), ("gql.tada", "1.8.0")]⟩,
   Except.ok ⟨"rawPluginConfig", "/project/tsconfig.json"⟩,
   fun _ => Except.ok ⟨some "./schema.graphql"⟩,
   Except.ok true⟩

/-- A manifest that parses but declares no `typescript` dependency. -/
def envNoTypescript : Env :=
  ⟨Except.ok "manifest contents",
   fun _ => Except.ok ⟨[("react", "18.0.0")], []⟩,
   Except.error "unused", fun _ => Except.error "unused", Except.error "unused"⟩

/-- `typescript` compliant, `@0no-co/graphqlsp` outdated AND `gql.tada`
missing: exercises the order of the two validations inside check 2. -/
def envLspOutdated : Env :=
  ⟨Except.ok "manifest contents",
   fun _ => Except.ok ⟨[("typescript", "5.0.0"), ("@0no-co/graphqlsp", "0.9.0")], []⟩,
   Except.error "unused", fun _ => Except.error "unused", Except.error "unused"⟩

/-- A manifest satisfying checks 1 and 2. -/
def goodManifest : PackageJson :=
  ⟨[("typescript", "5.0.0")],
   [("@0no-co/graphqlsp", "1.0.0"), ("gql.tada", "1.0.0")]⟩

/-- Checks 1-2 pass; `loadConfig()` throws. -/
def envConfigMissing : Env :=
  ⟨Except.ok "manifest contents", fun _ => Except.ok goodManifest,
   Except.error "ENOENT", fun _ => Except.error "unused", Except.error "unused"⟩

/-- Checks 1-2 pass; `parseConfig` throws on the raw plugin config. -/
def envConfigInvalid : Env :=
  ⟨Except.ok "manifest contents", fun _ => Except.ok goodManifest,
   Except.ok ⟨"rawPluginConfig", "/project/tsconfig.json"⟩,
   fun _ => Except.error "invalid shape", Except.error "unused"⟩

/-- Checks 1-2 pass; parsing succeeds but no `schema` option is set. -/
def envNoSchemaOption : Env :=
  ⟨Except.ok "manifest contents", fun _ => Except.ok goodManifest,
   Except.ok ⟨"rawPluginConfig", "/project/tsconfig.json"⟩,
   fun _ => Except.ok ⟨none⟩, Except.error "unused"⟩

/-- Checks 1-3 pass; `loader.loadIntrospection()` throws. -/
def envSchemaThrows : Env :=
  ⟨Except.ok "manifest contents", fun _ => Except.ok goodManifest,
   Except.ok ⟨"rawPluginConfig", "/project/tsconfig.json"⟩,
   fun _ => Except.ok ⟨some "./schema.graphql"⟩, Except.error "network down"⟩

/-- Checks 1-3 pass; the loader returns an empty/falsy result. -/
def envSchemaEmpty : Env :=
  ⟨Except.ok "manifest contents", fun _ => Except.ok goodManifest,
   Except.ok ⟨"rawPluginConfig", "/project/tsconfig.json"⟩,
   fun _ => Except.ok ⟨some "./schema.graphql"⟩, Except.ok false⟩

/-- The manifest file reads fine but its contents are not parseable. -/
def envManifestMalformed : Env :=
  ⟨Except.ok "not json at all",
   fun _ => Except.error "SyntaxError",
   Except.error "unused", fun _ => Except.error "unused", Except.error "unused"⟩

/-- The manifest file cannot be read at all. -/
def envManifestMissing : Env :=
  ⟨Except.error "ENOENT",
   fun _ => Except.error "unused",
   Except.error "unused", fun _ => Except.error "unused", Except.error "unused"⟩

/-! ## Helper lemmas -/

/-- The event sequence is independent of the wait duration. -/
theorem runWith_events_eq (d d' : Nat) (env : Env) :
    events (runWith d env) = events (runWith d' env) := by
  unfold runWith
  repeat' split
  all_goals simp [events, eventsOf, stepsPrefix4, stepsPrefix3, stepsPrefix2, stepsPrefix1]

/-- The terminal outcome is independent of the wait duration. -/
theorem runWith_outcome_eq (d d' : Nat) (env : Env) :
    (runWith d env).2 = (runWith d' env).2 := by
  unfold runWith
  repeat' split
  all_goals rfl

/-- Updating one key of an entries list leaves lookups of other keys
unchanged. -/
theorem lookupA_map_update_ne (k v name : String) (hne : k ≠ name)
    (obj : List (String × String)) :
    lookupA (obj.map (fun p => if p.1 = k then (p.1, v) else p)) name =
      lookupA obj name := by
  have hnk : ¬name = k := fun h => hne h.symm
  induction obj with
  | nil => rfl
  | cons p rest ih =>
    by_cases hp : p.1 = name
    · have hpk : ¬p.1 = k := by rw [hp]; exact hnk
      simp [lookupA, List.find?_cons, hp, hpk, hnk]
    · by_cases hpk : p.1 = k <;>
        simp_all [lookupA, List.find?_cons, hp, hpk, hnk]

/-- Updating a key that is present makes lookups of it see the new
value. -/
theorem lookupA_map_update_eq (k v : String) (obj : List (String × String))
    (hk : obj.any (fun p => p.1 = k) = true) :
    lookupA (obj.map (fun p => if p.1 = k then (p.1, v) else p)) k = some v := by
  induction obj with
  | nil => simp at hk
  | cons p rest ih =>
    by_cases hp : p.1 = k
    · simp [lookupA, List.find?_cons, hp]
    · simp only [List.any_cons, Bool.or_eq_true, decide_eq_true_eq] at hk
      rcases hk with hk | hk
      · exact absurd hk hp
      · simp_all [lookupA, List.find?_cons, hp]

/-- Appending a fresh entry: lookups of its key see it, others are
unchanged. -/
theorem lookupA_append_single (e : String × String) (name : String)
    (obj : List (String × String))
    (h : obj.any (fun p => p.1 = e.1) = false) :
    lookupA (obj ++ [e]) name =
      if e.1 = name then some e.2 else lookupA obj name := by
  induction obj with
  | nil => by_cases he : e.1 = name <;> simp [lookupA, List.find?_cons, he]
  | cons p rest ih =>
    simp only [List.any_cons, Bool.or_eq_false_iff, decide_eq_false_iff_not] at h
    by_cases hp : p.1 = name
    · have : ¬e.1 = name := fun hc => h.1 (hp.trans hc.symm)
      simp [lookupA, List.find?_cons, hp, this]
    · have hrest : rest.any (fun p => p.1 = e.1) = false := by
        simp only [List.any_eq_false, decide_eq_false_iff_not]
        intro x hx
        have := h.2
        simp only [List.any_eq_false, decide_eq_false_iff_not] at this
        exact this x hx
      simp_all [lookupA, List.find?_cons, hp]

/-- One spread assignment: the assigned key now resolves to the assigned
value, all other keys are untouched. -/
theorem lookupA_objAssign (obj : List (String × String))
    (entry : String × String) (name : String) :
    lookupA (objAssign obj entry) name =
      if entry.1 = name then some entry.2 else lookupA obj name := by
  unfold objAssign
  cases hk : obj.any (fun p => p.1 = entry.1) with
  | true =>
    simp only [hk, if_true]
    by_cases he : entry.1 = name
    · subst he; rw [if_pos rfl]; exact lookupA_map_update_eq _ _ _ hk
    · rw [if_neg he]; exact lookupA_map_update_ne _ _ _ he _
  | false =>
    simp only [hk, Bool.false_eq_true, if_false]
    exact lookupA_append_single _ _ _ hk

/-- Folding spread assignments: the last assignment of a key wins. -/
theorem lookupA_foldl (l : List (String × String))
    (obj : List (String × String)) (name : String) :
    lookupA (l.foldl objAssign obj) name =
      (lookupLast l name).or (lookupA obj name) := by
  induction l generalizing obj with
  | nil => rfl
  | cons e rest ih =>
    rw [List.foldl_cons, ih, lookupA_objAssign, lookupLast, Option.or_assoc]
    cases h : lookupLast rest name with
    | some v => simp
    | none =>
      by_cases he : e.1 = name <;> simp [he]

/-- Last-entry lookup distributes over append, later part first. -/
theorem lookupLast_append (a b : List (String × String)) (name : String) :
    lookupLast (a ++ b) name =
      (lookupLast b name).or (lookupLast a name) := by
  induction a with
  | nil => simp [lookupLast]
  | cons p rest ih =>
    simp only [List.cons_append, lookupLast, List.append_eq, ih, Option.or_assoc]

/-- The comparator is nonnegative exactly when the first triple is
componentwise-lexicographically at least the second. -/
theorem semiverAux_nonneg_iff (x y : Nat × Nat × Nat) :
    0 ≤ (if x.1 < y.1 then (-1 : Int)
         else if y.1 < x.1 then 1
         else if x.2.1 < y.2.1 then -1
         else if y.2.1 < x.2.1 then 1
         else if x.2.2 < y.2.2 then -1
         else if y.2.2 < x.2.2 then 1
         else 0) ↔ tripleGE x y := by
  rcases x with ⟨a1, a2, a3⟩
  rcases y with ⟨b1, b2, b3⟩
  unfold tripleGE
  split_ifs <;> omega

/-- `semiver` specialization of the previous lemma. -/
theorem semiver_nonneg_iff (a b : String) :
    0 ≤ semiver a b ↔ tripleGE (parseTriple a) (parseTriple b) :=
  semiverAux_nonneg_iff (parseTriple a) (parseTriple b)

/-! ## Claims -/

/-- Claim C1, counterexample: at a concrete environment in which all four
checks succeed, the event sequence produced by `run()` is NOT exactly the
four Running/Completed pairs followed by the success sentinel — a
title/description event precedes them. -/
theorem claim_C1_counterexample :
    allChecksPass envAllPass = true ∧
    events (run false envAllPass) ≠
      [Event.running Messages.CHECK_TS_VERSION,
       Event.completed Messages.CHECK_TS_VERSION false,
       Event.running Messages.CHECK_DEPENDENCIES,
       Event.completed Messages.CHECK_DEPENDENCIES false,
       Event.running Messages.CHECK_TSCONFIG,
       Event.completed Messages.CHECK_TSCONFIG false,
       Event.running Messages.CHECK_SCHEMA,
       Event.completed Messages.CHECK_SCHEMA true,
       Event.success] := by
  constructor <;> decide

/-- Claim C1, amended: for every run in which all four checks succeed,
the event sequence produced by `run()` is exactly a title/description
event, then a Running event followed by a Completed event for each of the
four checks in order — only the fourth Completed carrying
`final = true` — then exactly one success sentinel, after which the
sequence ends normally with no error raised and no further events. -/
theorem claim_C1_amended (ci : Bool) (env : Env) (h : allChecksPass env = true) :
    events (run ci env) =
      [Event.title Messages.TITLE Messages.DESCRIPTION,
       Event.running Messages.CHECK_TS_VERSION,
       Event.completed Messages.CHECK_TS_VERSION false,
       Event.running Messages.CHECK_DEPENDENCIES,
       Event.completed Messages.CHECK_DEPENDENCIES false,
       Event.running Messages.CHECK_TSCONFIG,
       Event.completed Messages.CHECK_TSCONFIG false,
       Event.running Messages.CHECK_SCHEMA,
       Event.completed Messages.CHECK_SCHEMA true,
       Event.success] ∧
    (run ci env).2 = Outcome.success := by
  unfold run runWith
  repeat' split
  all_goals
    simp_all [allChecksPass, check1Passes, check2Passes, lspPasses, tadaPasses,
      check3Passes, check4Passes, manifest, depCompliant,
      events, eventsOf, stepsPrefix4, stepsPrefix3, stepsPrefix2, stepsPrefix1]

/-- Witness for claim C1's amended theorem: `envAllPass` satisfies the
hypothesis and the theorem applies to it. -/
theorem claim_C1_witness :
    allChecksPass envAllPass = true ∧ (run false envAllPass).2 = Outcome.success :=
  ⟨by decide, (claim_C1_amended false envAllPass (by decide)).2⟩

/-- Claim C2: in every run, checks are entered strictly in order, at most
one check is running at any instant, and each check's lifecycle is
Running followed by exactly one terminal Completed/Failed event, never
revisited; in particular no Running event of check N+1 precedes check N's
terminal event. -/
theorem claim_C2 (ci : Bool) (env : Env) :
    lifecycleWF (events (run ci env)) = true := by
  unfold run runWith
  repeat' split
  all_goals simp only [events, eventsOf, stepsPrefix4, stepsPrefix3, stepsPrefix2,
    stepsPrefix1, List.append_assoc, List.cons_append, List.nil_append,
    List.filterMap_cons, List.filterMap_append, List.filterMap_nil]
  all_goals decide

/-- Claim C3: every failure mode of checks 1 and 2 emits a Failed event
for the failing check and terminates the pipeline with a `UserError`, so
no later check's Running event is produced; moreover the
language-service-plugin package is validated before the core library
package, whose entry is never examined when the former fails (the
reported message depends only on the plugin package's own entry). -/
theorem claim_C3 (ci : Bool) (env : Env) :
    (check1Passes env = false →
      events (run ci env) =
        [Event.title Messages.TITLE Messages.DESCRIPTION,
         Event.running Messages.CHECK_TS_VERSION,
         Event.failed Messages.CHECK_TS_VERSION] ∧
      ∃ m, (run ci env).2 = Outcome.error (PipelineError.userError m)) ∧
    (check1Passes env = true → check2Passes env = false →
      events (run ci env) =
        [Event.title Messages.TITLE Messages.DESCRIPTION,
         Event.running Messages.CHECK_TS_VERSION,
         Event.completed Messages.CHECK_TS_VERSION false,
         Event.running Messages.CHECK_DEPENDENCIES,
         Event.failed Messages.CHECK_DEPENDENCIES] ∧
      ∃ m, (run ci env).2 = Outcome.error (PipelineError.userError m)) ∧
    (check1Passes env = true → lspPasses env = false →
      (run ci env).2 = Outcome.error (PipelineError.userError (graphqlspFailureMsg env))) := by
  refine ⟨fun h1 => ?_, fun h1 h2 => ?_, fun h1 h2 => ?_⟩ <;>
  · unfold run runWith
    repeat' split
    all_goals
      simp_all [-List.find?_eq_none, check1Passes, check2Passes, lspPasses, tadaPasses,
        manifest, depCompliant, graphqlspFailureMsg, logger.errorMessage,
        logger.externalError, events, eventsOf, stepsPrefix4, stepsPrefix3,
        stepsPrefix2, stepsPrefix1]

/-- Witness for claim C3: a manifest with no `typescript` entry fails
check 1 with a `UserError`; a compliant `typescript` with an outdated
plugin package and a missing `gql.tada` yields the plugin-specific
message. -/
theorem claim_C3_witness :
    (check1Passes envNoTypescript = false ∧
      ∃ m, (run false envNoTypescript).2 = Outcome.error (PipelineError.userError m)) ∧
    (check1Passes envLspOutdated = true ∧ lspPasses envLspOutdated = false ∧
      (run false envLspOutdated).2 =
        Outcome.error (PipelineError.userError (graphqlspFailureMsg envLspOutdated))) :=
  ⟨⟨by decide, ((claim_C3 false envNoTypescript).1 (by decide)).2⟩,
   ⟨by decide, by decide, (claim_C3 false envLspOutdated).2.2 (by decide) (by decide)⟩⟩

/-- Claim C4: with checks 1-2 passing, a `loadConfig()` failure ends the
run with an `ExternalError` wrapping the resolver's cause; a
`parseConfig` failure ends it with an `ExternalError` wrapping the
parser's cause WITHOUT a Failed event for check 3; a parsed configuration
with no schema option emits Failed for check 3 and ends with the
missing-schema `UserError`. -/
theorem claim_C4 (ci : Bool) (env : Env)
    (h1 : check1Passes env = true) (h2 : check2Passes env = true) :
    (∀ c, env.loadConfig = Except.error c →
      events (run ci env) =
        [Event.title Messages.TITLE Messages.DESCRIPTION,
         Event.running Messages.CHECK_TS_VERSION,
         Event.completed Messages.CHECK_TS_VERSION false,
         Event.running Messages.CHECK_DEPENDENCIES,
         Event.completed Messages.CHECK_DEPENDENCIES false,
         Event.running Messages.CHECK_TSCONFIG,
         Event.failed Messages.CHECK_TSCONFIG] ∧
      (run ci env).2 = Outcome.error (PipelineError.externalError tsconfigNotFoundMsg c)) ∧
    (∀ cr c, env.loadConfig = Except.ok cr →
      env.parseConfig cr.pluginConfig = Except.error c →
      events (run ci env) =
        [Event.title Messages.TITLE Messages.DESCRIPTION,
         Event.running Messages.CHECK_TS_VERSION,
         Event.completed Messages.CHECK_TS_VERSION false,
         Event.running Messages.CHECK_DEPENDENCIES,
         Event.completed Messages.CHECK_DEPENDENCIES false,
         Event.running Messages.CHECK_TSCONFIG] ∧
      (run ci env).2 = Outcome.error (PipelineError.externalError invalidPluginConfigMsg c)) ∧
    (∀ cr pc, env.loadConfig = Except.ok cr →
      env.parseConfig cr.pluginConfig = Except.ok pc → pc.schema = none →
      events (run ci env) =
        [Event.title Messages.TITLE Messages.DESCRIPTION,
         Event.running Messages.CHECK_TS_VERSION,
         Event.completed Messages.CHECK_TS_VERSION false,
         Event.running Messages.CHECK_DEPENDENCIES,
         Event.completed Messages.CHECK_DEPENDENCIES false,
         Event.running Messages.CHECK_TSCONFIG,
         Event.failed Messages.CHECK_TSCONFIG] ∧
      (run ci env).2 = Outcome.error (PipelineError.userError noSchemaOptionMsg)) := by
  refine ⟨fun c hc => ?_, fun cr c hcr hc => ?_, fun cr pc hcr hc hs => ?_⟩ <;>
  · unfold run runWith
    repeat' split
    all_goals
      simp_all [-List.find?_eq_none, check1Passes, check2Passes, lspPasses, tadaPasses,
        manifest, depCompliant, logger.errorMessage, logger.externalError,
        events, eventsOf, stepsPrefix4, stepsPrefix3, stepsPrefix2, stepsPrefix1]

/-- Witness for claim C4: the three check-3 failure environments. -/
theorem claim_C4_witness :
    ((run false envConfigMissing).2 =
      Outcome.error (PipelineError.externalError tsconfigNotFoundMsg "ENOENT")) ∧
    ((run false envConfigInvalid).2 =
      Outcome.error (PipelineError.externalError invalidPluginConfigMsg "invalid shape")) ∧
    ((run false envNoSchemaOption).2 =
      Outcome.error (PipelineError.userError noSchemaOptionMsg)) :=
  ⟨((claim_C4 false envConfigMissing (by decide) (by decide)).1 "ENOENT" rfl).2,
   ((claim_C4 false envConfigInvalid (by decide) (by decide)).2.1
      ⟨"rawPluginConfig", "/project/tsconfig.json"⟩ "invalid shape" rfl rfl).2,
   ((claim_C4 false envNoSchemaOption (by decide) (by decide)).2.2
      ⟨"rawPluginConfig", "/project/tsconfig.json"⟩ ⟨none⟩ rfl rfl rfl).2⟩

/-- Claim C5: with checks 1-3 passing, a loader exception ends the run
with an `ExternalError` carrying the exception as cause, and a falsy
loader result ends it with a `UserError` whose message text is the very
same string but with no cause; in neither case (in particular the falsy
one) is a Failed event emitted for check 4. -/
theorem claim_C5 (ci : Bool) (env : Env)
    (h1 : check1Passes env = true) (h2 : check2Passes env = true)
    (h3 : check3Passes env = true) :
    (∀ c, env.loadIntrospection = Except.error c →
      events (run ci env) =
        [Event.title Messages.TITLE Messages.DESCRIPTION,
         Event.running Messages.CHECK_TS_VERSION,
         Event.completed Messages.CHECK_TS_VERSION false,
         Event.running Messages.CHECK_DEPENDENCIES,
         Event.completed Messages.CHECK_DEPENDENCIES false,
         Event.running Messages.CHECK_TSCONFIG,
         Event.completed Messages.CHECK_TSCONFIG false,
         Event.running Messages.CHECK_SCHEMA] ∧
      (run ci env).2 =
        Outcome.error (PipelineError.externalError "Failed to load schema." c)) ∧
    (env.loadIntrospection = Except.ok false →
      events (run ci env) =
        [Event.title Messages.TITLE Messages.DESCRIPTION,
         Event.running Messages.CHECK_TS_VERSION,
         Event.completed Messages.CHECK_TS_VERSION false,
         Event.running Messages.CHECK_DEPENDENCIES,
         Event.completed Messages.CHECK_DEPENDENCIES false,
         Event.running Messages.CHECK_TSCONFIG,
         Event.completed Messages.CHECK_TSCONFIG false,
         Event.running Messages.CHECK_SCHEMA] ∧
      (run ci env).2 = Outcome.error (PipelineError.userError "Failed to load schema.")) := by
  refine ⟨fun c hc => ?_, fun hc => ?_⟩ <;>
  · unfold run runWith
    repeat' split
    all_goals
      simp_all [-List.find?_eq_none, check1Passes, check2Passes, lspPasses, tadaPasses,
        check3Passes, manifest, depCompliant, logger.errorMessage, logger.externalError,
        events, eventsOf, stepsPrefix4, stepsPrefix3, stepsPrefix2, stepsPrefix1]

/-- Witness for claim C5: the loader-exception and empty-result
environments. -/
theorem claim_C5_witness :
    ((run false envSchemaThrows).2 =
      Outcome.error (PipelineError.externalError "Failed to load schema." "network down")) ∧
    ((run false envSchemaEmpty).2 =
      Outcome.error (PipelineError.userError "Failed to load schema.")) :=
  ⟨((claim_C5 false envSchemaThrows (by decide) (by decide) (by decide)).1
      "network down" rfl).2,
   ((claim_C5 false envSchemaEmpty (by decide) (by decide) (by decide)).2 rfl).2⟩

/-- Claim C6: for every pair of strings, if the discovered string holds
no dotted triple of digits the comparator returns false (it is a total
function, so it never throws); otherwise it compares the first such
triple against the minimum by three-component numeric ordering and
returns true exactly when the discovered triple is at least the minimum —
with the inclusive lower bound and surrounding-text tolerance shown on
the spec's own examples. -/
theorem claim_C6 (version compare : String) :
    (findTriple version.data = none → semiverComply version compare = false) ∧
    (∀ m, findTriple version.data = some m →
      (semiverComply version compare = true ↔
        tripleGE (parseTriple m) (parseTriple compare))) ∧
    semiverComply "4.1.0" "4.1.0" = true ∧
    semiverComply "~4.9.5 beta" "4.1.0" = true ∧
    semiverComply "3.9.0" "4.1.0" = false := by
  refine ⟨fun h => ?_, fun m hm => ?_, by decide, by decide, by decide⟩
  · unfold semiverComply; rw [h]
  · unfold semiverComply; rw [hm]
    simp [semiver_nonneg_iff]

/-- Witness for claim C6: a triple-free string is rejected; a string with
leading and trailing text around `4.9.5` matches on exactly that triple
and complies with minimum `4.1.0`. -/
theorem claim_C6_witness :
    findTriple "latest".data = none ∧
    semiverComply "latest" "4.1.0" = false ∧
    findTriple "v4.9.5-beta.2".data = some "4.9.5" ∧
    (semiverComply "v4.9.5-beta.2" "4.1.0" = true ↔
      tripleGE (parseTriple "4.9.5") (parseTriple "4.1.0")) :=
  ⟨by decide, (claim_C6 "latest" "4.1.0").1 (by decide), by decide,
   (claim_C6 "v4.9.5-beta.2" "4.1.0").2.1 "4.9.5" (by decide)⟩

/-- Claim C7: the dependency map consulted by every package lookup merges
the regular dependency record with the development record; a lookup sees
the (last) development-dependency version string whenever the name occurs
there, and falls back to the regular record otherwise — so the later
merge source wins on key collision. -/
theorem claim_C7 (pkg : PackageJson) (name : String) :
    lookupA (mergedDeps pkg) name =
      (lookupLast pkg.devDependencies name).or (lookupLast pkg.dependencies name) := by
  unfold mergedDeps objSpread
  rw [lookupA_foldl, lookupLast_append, Option.or_assoc]
  simp [lookupA]

/-- Claim C8: when the CI flag is set every pacing delay resolves
immediately (the delay function returns 0 and every wait in the trace is
0 ms), and the run with delays disabled produces exactly the same event
sequence and the same terminal outcome as the run with delays enabled —
pacing affects timing only, never outcomes. -/
theorem claim_C8 (env : Env) (ms : Nat) :
    delay true ms = 0 ∧
    (waitsOf (run true env).1).all (fun w => w = 0) = true ∧
    events (run true env) = events (run false env) ∧
    (run true env).2 = (run false env).2 := by
  refine ⟨rfl, ?_, runWith_events_eq (delay true 700) (delay false 700) env,
    runWith_outcome_eq (delay true 700) (delay false 700) env⟩
  unfold run runWith
  repeat' split
  all_goals
    simp [waitsOf, delay, stepsPrefix4, stepsPrefix3, stepsPrefix2, stepsPrefix1]

/-- Claim C9: when the manifest file reads successfully but its contents
fail to parse, check 1 behaves exactly as in the missing-manifest case:
the same Failed event, the same `UserError` stating that no
`package.json` was found in the current working directory, and an
identical full trace — a present-but-malformed manifest is
indistinguishable from an absent one. -/
theorem claim_C9 (ci : Bool) (env : Env) (file c : String)
    (hread : env.readPackageJson = Except.ok file)
    (hparse : env.parseJson file = Except.error c) :
    run ci env =
      ([Step.emit (Event.title Messages.TITLE Messages.DESCRIPTION),
        Step.emit (Event.running Messages.CHECK_TS_VERSION),
        Step.wait (delay ci 700), Step.readManifest,
        Step.emit (Event.failed Messages.CHECK_TS_VERSION)],
       Outcome.error (PipelineError.userError manifestNotFoundMsg)) ∧
    (∀ env2 c2, env2.readPackageJson = Except.error c2 → run ci env2 = run ci env) := by
  constructor
  · simp [run, runWith, hread, hparse, stepsPrefix1, logger.errorMessage]
  · intro env2 c2 h2
    simp [run, runWith, h2, hread, hparse, stepsPrefix1, logger.errorMessage]

/-- Witness for claim C9: a malformed manifest and a missing manifest
produce identical runs. -/
theorem claim_C9_witness :
    run false envManifestMalformed =
      ([Step.emit (Event.title Messages.TITLE Messages.DESCRIPTION),
        Step.emit (Event.running Messages.CHECK_TS_VERSION),
        Step.wait (delay false 700), Step.readManifest,
        Step.emit (Event.failed Messages.CHECK_TS_VERSION)],
       Outcome.error (PipelineError.userError manifestNotFoundMsg)) ∧
    run false envManifestMissing = run false envManifestMalformed :=
  ⟨(claim_C9 false envManifestMalformed "not json at all" "SyntaxError" rfl rfl).1,
   (claim_C9 false envManifestMalformed "not json at all" "SyntaxError" rfl rfl).2
     envManifestMissing "ENOENT" rfl⟩

/-- Claim C10: in every run the very first step of the trace is the
title/description event — before the pacing delay, before the manifest
read and before check 1's Running event — and the event sequence of
every run, failing ones included, begins with the title event followed
by check 1's Running event. -/
theorem claim_C10 (ci : Bool) (env : Env) :
    (run ci env).1.take 4 =
      [Step.emit (Event.title Messages.TITLE Messages.DESCRIPTION),
       Step.emit (Event.running Messages.CHECK_TS_VERSION),
       Step.wait (delay ci 700), Step.readManifest] ∧
    (events (run ci env)).take 2 =
      [Event.title Messages.TITLE Messages.DESCRIPTION,
       Event.running Messages.CHECK_TS_VERSION] := by
  refine ⟨?_, ?_⟩ <;>
  · unfold run runWith
    repeat' split
    all_goals
      simp [events, eventsOf, stepsPrefix4, stepsPrefix3, stepsPrefix2, stepsPrefix1]
